import Mathlib

/-!
Shallow embedding of `src/openai_client.py` (class `OpenAIClient`).

Conventions used throughout:
- Python strings are Lean `String`; byte sequences are `List Nat`.
- Python `None`-able values are `Option`; Python truthiness of a string /
  optional value is made explicit at each use site, mirroring the source.
- Monetary costs (Python floats) are modelled as `ℚ`.
- Python code that can raise returns `Except PyError`; code that catches
  all exceptions internally returns a plain value plus the list of
  diagnostic lines it prints.
- The filesystem and the external OpenAI API are passed in as explicit
  collaborator functions, mirroring the spec's capability-interface view.
- The `cost_calculator` module is imported by the source but is not part
  of the repository snapshot; it is modelled from the spec (see
  `CostCalculator` below).
-/

/-- A content part of a multi-part user message: either the text part
`{"type": "text", "text": s}` or an image part
`{"type": "image_url", "image_url": {"url": u}}`. -/
inductive CPart where
  | text (s : String)
  | image_url (url : String)
deriving DecidableEq

/-- A Python message `content` value: either a plain string or a list of
content-part dicts. -/
inductive Content where
  | str (s : String)
  | parts (l : List CPart)
deriving DecidableEq

/-- A chat message dict `{"role": r, "content": c}`. Every message built by
the source carries both keys. -/
structure Message where
  role : String
  content : Content
deriving DecidableEq

/-- The Python exceptions that can escape the embedded code. `typeError`
models the `TypeError` raised by `"".join` on a non-string element. -/
inductive PyError where
  | typeError
deriving DecidableEq

/-- The filesystem collaborator: maps a path to the file bytes, or `none`
when opening/reading the file raises. -/
def FS : Type := String → Option (List Nat)

/-- The standard base64 alphabet. -/
def base64Chars : List Char :=
  "ABCDEFGHIJKLMNOPQRSTUVWXYZabcdefghijklmnopqrstuvwxyz0123456789+/".toList

/-- The base64 digit for a 6-bit value. -/
def b64char (n : Nat) : Char := base64Chars.getD n 'A'

/-- Standard base64 of a byte sequence (Python `base64.b64encode`),
including `=` padding. -/
def base64encode : List Nat → String
  | [] => ""
  | [a] => String.mk [b64char (a / 4), b64char (a % 4 * 16), '=', '=']
  | [a, b] => String.mk [b64char (a / 4), b64char (a % 4 * 16 + b / 16), b64char (b % 16 * 4), '=']
  | a :: b :: c :: rest =>
      String.mk [b64char (a / 4), b64char (a % 4 * 16 + b / 16),
        b64char (b % 16 * 4 + c / 64), b64char (c % 64)] ++ base64encode rest

/-- Does `pat` match at the head of the character list? -/
def leadMatch : List Char → List Char → Bool
  | [], _ => true
  | _ :: _, [] => false
  | a :: as, b :: bs => a == b && leadMatch as bs

/-- Does `pat` occur as a contiguous run anywhere in the character list? -/
def subOccurs (pat : List Char) : List Char → Bool
  | [] => leadMatch pat []
  | b :: bs => leadMatch pat (b :: bs) || subOccurs pat bs

/-- Python `pat in s` on strings: substring test. -/
def strContains (s pat : String) : Bool := subOccurs pat.toList s.toList

/-- Python equality between a content-part dict and a string: a dict never
compares equal to a string, so this is constantly `false`. -/
def part_eq_str (_p : CPart) (_s : String) : Bool := false

/-- Python `"image_url" in msg['content']` (line 73 of the source): a
substring test when the content is a string; for a list content, membership
of the string among the list elements, which are dicts and never equal it. -/
def content_contains_image_url (c : Content) : Bool :=
  match c with
  | .str s => strContains s "image_url"
  | .parts l => l.any (fun p => part_eq_str p "image_url")

/-- Spec-side notion (used only to state claims about the flag): the
content actually carries an image part. -/
def content_has_image_part (c : Content) : Bool :=
  match c with
  | .str _ => false
  | .parts l => l.any (fun p => match p with | .image_url _ => true | .text _ => false)

/-- Modelled from the spec: the `CostCalculator` class of the
`cost_calculator` module, which `openai_client.py` imports but whose source
is not part of the repository snapshot. Per spec §4.2 both estimators are
deterministic functions returning non-negative costs; `completionText` may
be absent (the first choice's `content` can be `None`). The pricing lookup
happens before any call, so a constructed calculator is total. -/
structure CostCalculator where
  calculate_prompt_cost : String → Bool → ℚ
  calculate_completion_cost : Option String → ℚ
  prompt_cost_nonneg : ∀ s b, 0 ≤ calculate_prompt_cost s b
  completion_cost_nonneg : ∀ t, 0 ≤ calculate_completion_cost t

/-- The mutable state of an `OpenAIClient` instance. -/
structure ClientState where
  model : String
  cost_calculator : CostCalculator
  total_prompt_cost : ℚ
  total_completion_cost : ℚ

/-- The message field of a response choice: raw text `content`, optional
`parsed` structured payload (a pydantic object, modelled opaquely as a
string; such an object is always truthy when present), and optional
`refusal` string. -/
structure ChoiceMessage where
  content : Option String
  parsed : Option String
  refusal : Option String
deriving DecidableEq

/-- One choice of an API response. -/
structure Choice where
  message : ChoiceMessage
deriving DecidableEq

/-- An API response: zero or more choices. -/
structure Response where
  choices : List Choice
deriving DecidableEq

/-- The request payload dict built by `_build_api_payload`. `none` in an
optional field means the key is absent from the dict. -/
structure ApiPayload where
  model : String
  messages : List Message
  response_format : Option String
  max_completion_tokens : Option Int
deriving DecidableEq

/-- The value returned by `chat` / `_handle_response`: the parsed payload,
the refusal string, or the raw (possibly `None`) response object. -/
inductive ChatOutcome where
  | parsedResult (p : String)
  | refusalResult (s : String)
  | rawResult (r : Option Response)
deriving DecidableEq

namespace OpenAIClient

/-- `__init__`: store the model, build the cost calculator (its pricing
lookup is the constructor's concern and is modelled as the already-built
`cc` argument), and zero both running totals. -/
def init (model : String) (cc : CostCalculator) : ClientState :=
  { model := model, cost_calculator := cc,
    total_prompt_cost := 0, total_completion_cost := 0 }

/-- `_encode_image`: read and base64-encode the file; any read failure is
caught, a diagnostic is printed and `None` is returned. Returns the result
together with the printed diagnostic lines. -/
def encode_image (fs : FS) (image_path : String) : Option String × List String :=
  match fs image_path with
  | some bytes => (some (base64encode bytes), [])
  | none => (none, ["Error encoding image"])

/-- `_prepare_messages`: one system message, then one user message whose
content is a two-part list when a truthy image path yields a truthy
(non-`None`, non-empty) base64 string, and the plain user text otherwise.
Returns the messages together with any printed diagnostics. -/
def prepare_messages (fs : FS) (system_message user_message : String)
    (image_path : Option String) : List Message × List String :=
  let sys : Message := ⟨"system", Content.str system_message⟩
  match image_path with
  | some p =>
    if p != "" then
      match encode_image fs p with
      | (some s, diag) =>
        if s != "" then
          ([sys, ⟨"user", Content.parts
              [CPart.text user_message,
               CPart.image_url ("data:image/jpeg;base64," ++ s)]⟩], diag)
        else ([sys, ⟨"user", Content.str user_message⟩], diag)
      | (none, diag) => ([sys, ⟨"user", Content.str user_message⟩], diag)
    else ([sys, ⟨"user", Content.str user_message⟩], [])
  | none => ([sys, ⟨"user", Content.str user_message⟩], [])

/-- `_build_api_payload`: the `response_format` key is added when the
argument is truthy (a pydantic model class, truthy whenever present) and
the `max_completion_tokens` key when the argument is a truthy integer
(present and non-zero). -/
def build_api_payload (model : String) (messages : List Message)
    (response_format : Option String) (max_completion_tokens : Option Int) : ApiPayload :=
  { model := model, messages := messages,
    response_format :=
      match response_format with
      | some rf => some rf
      | none => none,
    max_completion_tokens :=
      match max_completion_tokens with
      | some n => if n != 0 then some n else none
      | none => none }

/-- `"".join([msg['content'] for msg in messages if 'content' in msg])`
(line 72): every embedded message has a `content` key; `join` raises
`TypeError` as soon as an element is not a string. -/
def join_contents : List Message → Except PyError String
  | [] => .ok ""
  | m :: rest =>
    match m.content with
    | .str s => (join_contents rest).map (fun t => s ++ t)
    | .parts _ => .error .typeError

/-- `has_image = any("image_url" in msg['content'] for msg in messages)`
(line 73). -/
def has_image (messages : List Message) : Bool :=
  messages.any (fun m => content_contains_image_url m.content)

/-- `_calculate_cost`: concatenate the message contents (line 72; raises
`TypeError` on a list-valued content), compute `has_image`, charge the
prompt side, and, when a truthy response with a non-empty `choices` list is
present, charge the completion side from the first choice's text. -/
def calculate_cost (st : ClientState) (messages : List Message)
    (response : Option Response) : Except PyError ClientState :=
  match join_contents messages with
  | .error e => .error e
  | .ok full_prompt =>
    let prompt_cost := st.cost_calculator.calculate_prompt_cost full_prompt (has_image messages)
    let st1 : ClientState := { st with total_prompt_cost := st.total_prompt_cost + prompt_cost }
    match response with
    | some r =>
      match r.choices with
      | c :: _ =>
        let completion_cost := st.cost_calculator.calculate_completion_cost c.message.content
        .ok { st1 with total_completion_cost := st1.total_completion_cost + completion_cost }
      | [] => .ok st1
    | none => .ok st1

/-- The client state after a `_calculate_cost` call as seen by the caller
holding the object: on success the updated state, and when the call raises
the totals are left untouched (the assignment never executed). -/
def calculate_cost_run (st : ClientState) (messages : List Message)
    (response : Option Response) : ClientState :=
  match calculate_cost st messages response with
  | .ok st1 => st1
  | .error _ => st

/-- `_handle_response`: on a truthy response with a non-empty `choices`
list, return the first choice's `parsed` payload when truthy, else its
`refusal` when truthy (a non-empty string) with a diagnostic; in every
other case return the raw (possibly `None`) response unchanged. Returns the
outcome together with the printed diagnostic lines. -/
def handle_response (response : Option Response) : ChatOutcome × List String :=
  match response with
  | some r =>
    match r.choices with
    | c :: _ =>
      match c.message.parsed with
      | some p => (.parsedResult p, [])
      | none =>
        match c.message.refusal with
        | some s =>
          if s != "" then (.refusalResult s, ["Model refused to process the request."])
          else (.rawResult response, [])
        | none => (.rawResult response, [])
    | [] => (.rawResult response, [])
  | none => (.rawResult response, [])

/-- `_make_api_call`: invoke the external API collaborator; any exception
is caught, a diagnostic is printed and `None` is returned. Returns the
response together with the printed diagnostic lines. -/
def make_api_call (api : ApiPayload → Except Unit Response)
    (api_payload : ApiPayload) : Option Response × List String :=
  match api api_payload with
  | .ok r => (some r, [])
  | .error _ => (none, ["Error calling OpenAI API"])

/-- `chat`: prepare messages, build the payload, call the API, unwrap the
response, then record costs (the Python default for `max_completion_tokens`
is `300`). An exception escaping `_calculate_cost` propagates to the caller
as the `.error` case; otherwise the unwrapped result, the updated state and
the printed diagnostics are returned. -/
def chat (st : ClientState) (fs : FS) (api : ApiPayload → Except Unit Response)
    (system_message user_message : String) (image_path : Option String)
    (response_format : Option String) (max_completion_tokens : Option Int) :
    Except PyError (ChatOutcome × ClientState × List String) :=
  let pm := prepare_messages fs system_message user_message image_path
  let messages := pm.1
  let api_payload := build_api_payload st.model messages response_format max_completion_tokens
  let mc := make_api_call api api_payload
  let response := mc.1
  let hr := handle_response response
  let response_result := hr.1
  match calculate_cost st messages response with
  | .error e => .error e
  | .ok st1 => .ok (response_result, st1, pm.2 ++ mc.2 ++ hr.2)

end OpenAIClient

/-- The three values reported by `print_total_costs` (each is then printed
with six-decimal formatting; the formatting layer is not modelled). -/
structure Totals where
  promptTotal : ℚ
  completionTotal : ℚ
  combinedTotal : ℚ

namespace OpenAIClient

/-- `print_total_costs`: reads the two running totals, computes their sum
and prints all three; the state is not mutated, so it is returned
unchanged alongside the reported values. -/
def print_total_costs (st : ClientState) : ClientState × Totals :=
  let total_cost := st.total_prompt_cost + st.total_completion_cost
  (st, { promptTotal := st.total_prompt_cost,
         completionTotal := st.total_completion_cost,
         combinedTotal := total_cost })

end OpenAIClient

/-! Concrete instances used to evaluate the theorems at specific inputs. -/

/-- A concrete cost calculator: one currency unit per prompt character plus
one unit when an image is flagged; one unit per completion character. -/
def demoCalc : CostCalculator where
  calculate_prompt_cost := fun s b => (s.length : ℚ) + (if b then 1 else 0)
  calculate_completion_cost := fun t => ((t.getD "").length : ℚ)
  prompt_cost_nonneg := by
    intro s b
    dsimp only
    have h1 : (0 : ℚ) ≤ (s.length : ℚ) := Nat.cast_nonneg _
    have h2 : (0 : ℚ) ≤ (if b then (1 : ℚ) else 0) := by split <;> norm_num
    linarith
  completion_cost_nonneg := fun t => Nat.cast_nonneg _

/-- A freshly constructed client over the concrete calculator. -/
def demoState : ClientState := OpenAIClient.init "gpt-4o-2024-08-06" demoCalc

/-- A filesystem holding one three-byte image file. -/
def fsImg : FS := fun p => if p = "img.jpg" then some [1, 2, 3] else none

/-- A filesystem holding one zero-byte image file. -/
def fsEmptyFile : FS := fun p => if p = "img.jpg" then some [] else none

/-- A filesystem on which every read fails. -/
def fsNone : FS := fun _ => none

/-- A response with one plain-text choice. -/
def demoResp : Response := ⟨[⟨⟨some "hi", none, none⟩⟩]⟩

/-- A response whose first choice carries a parsed structured payload. -/
def demoRespParsed : Response := ⟨[⟨⟨some "x", some "payload", none⟩⟩]⟩

/-- An API collaborator that always answers with `demoResp`. -/
def apiOk : ApiPayload → Except Unit Response := fun _ => .ok demoResp

/-- An API collaborator that always raises. -/
def apiFail : ApiPayload → Except Unit Response := fun _ => .error ()

/-- A concrete request payload. -/
def demoPayload : ApiPayload := OpenAIClient.build_api_payload "m" [] none none

/-- A plain two-message list as built for an imageless call. -/
def demoMsgsPlain : List Message := [⟨"system", Content.str "s"⟩, ⟨"user", Content.str "u"⟩]

/-- A two-message list whose texts merely mention the token `image_url`
without carrying any image part. -/
def demoMsgsC2 : List Message :=
  [⟨"system", Content.str "describe"⟩,
   ⟨"user", Content.str "please put image_url in the json"⟩]

/-- A two-message list as built for a successful image call: the user
content is the two-part list with a text part and an image part. -/
def demoMsgsImage : List Message :=
  [⟨"system", Content.str "s"⟩,
   ⟨"user", Content.parts
     [CPart.text "u", CPart.image_url "data:image/jpeg;base64,AQID"]⟩]

/-! Helper lemmas. -/

/-- When the content concatenation succeeds, `_calculate_cost` returns
normally for every response. -/
theorem calculate_cost_ok (st : ClientState) (msgs : List Message)
    (resp : Option Response) (t : String)
    (hj : OpenAIClient.join_contents msgs = Except.ok t) :
    ∃ st1, OpenAIClient.calculate_cost st msgs resp = Except.ok st1 := by
  unfold OpenAIClient.calculate_cost
  rw [hj]
  cases resp with
  | none => exact ⟨_, rfl⟩
  | some r =>
    obtain ⟨chs⟩ := r
    cases chs with
    | nil => exact ⟨_, rfl⟩
    | cons c rest => exact ⟨_, rfl⟩

/-! Claim theorems. -/

/-- C1 (code bug): the claim — following the spec's propagation policy —
says every per-call error is caught inside `chat` and no exception reaches
its caller, in particular that cost recording after a call whose user
message carries an image part never raises. In the code the cost-recording
concatenation (`"".join` over the message contents) hits the list-valued
user content of an image call and raises `TypeError`, which `chat` does not
catch. Evaluated here on a concrete image call whose file read, encoding
and API call all succeed: `chat` ends in the uncaught `TypeError`. -/
theorem chat_raises_on_image_message :
    OpenAIClient.chat demoState fsImg apiOk "sys" "usr" (some "img.jpg") none (some 300)
      = Except.error PyError.typeError := by
  rfl

/-- C2 counterexample: the claim says the `has_image` flag handed to the
prompt-cost estimator is false whenever no message carries an image part,
regardless of the literal text of any plain-text message. On a message list
whose user text merely mentions `image_url` (and which reaches the
estimator: the concatenation succeeds), the flag is `true` although no
message carries an image part. -/
theorem has_image_true_without_image_part :
    OpenAIClient.join_contents demoMsgsC2
      = Except.ok "describeplease put image_url in the json"
    ∧ OpenAIClient.has_image demoMsgsC2 = true
    ∧ demoMsgsC2.map (fun m => content_has_image_part m.content) = [false, false] := by
  refine ⟨by rfl, by rfl, by rfl⟩

/-- C2 amended: the `has_image` flag computed by `_calculate_cost` is true
iff some message's content contains the literal string `image_url` under
Python's `in` operator — a substring test on a plain-text content — and a
list-valued content never sets the flag (its elements are part dicts, which
never compare equal to the string), so an actual image part does not set
it. -/
theorem has_image_iff_mentions_image_url (msgs : List Message) :
    (OpenAIClient.has_image msgs = true
      ↔ ∃ m ∈ msgs, content_contains_image_url m.content = true)
    ∧ ∀ l : List CPart, content_contains_image_url (Content.parts l) = false := by
  constructor
  · simp [OpenAIClient.has_image, List.any_eq_true]
  · intro l
    simp [content_contains_image_url, part_eq_str]

/-- C3 (code bug): the claim — following the spec — says the prompt text
handed to the estimator is the concatenation of the textual contents with
image parts skipped (while image presence is still detected). In the code
the concatenation does not skip a list-valued content: it raises
`TypeError`, so on a message list carrying an image part the estimator is
never reached. Evaluated here on the message list of a successful image
call. -/
theorem calculate_cost_type_error_on_image_part :
    OpenAIClient.calculate_cost demoState demoMsgsImage (some demoResp)
      = Except.error PyError.typeError := by
  rfl

/-- C7: `print_total_costs` is read-only (the state comes back unchanged,
so two consecutive reports with no cost recording in between are
identical), and the combined total it reports is exactly the sum of the
running prompt total and the running completion total. -/
theorem print_total_costs_read_only_sum (st : ClientState) :
    (OpenAIClient.print_total_costs st).1 = st
    ∧ (OpenAIClient.print_total_costs ((OpenAIClient.print_total_costs st).1)).2
        = (OpenAIClient.print_total_costs st).2
    ∧ (OpenAIClient.print_total_costs st).2.combinedTotal
        = (OpenAIClient.print_total_costs st).2.promptTotal
          + (OpenAIClient.print_total_costs st).2.completionTotal :=
  ⟨rfl, rfl, rfl⟩

/-- C8: both running totals are zero (hence non-negative) at construction,
and a cost recording never decreases either total: the prompt and
completion estimators return non-negative costs (spec §4.2), the
successful paths only add them, and the raising path leaves the totals
untouched. -/
theorem totals_nonneg_and_monotone :
    (∀ (m : String) (cc : CostCalculator),
      0 ≤ (OpenAIClient.init m cc).total_prompt_cost
      ∧ 0 ≤ (OpenAIClient.init m cc).total_completion_cost)
    ∧ ∀ (st : ClientState) (msgs : List Message) (resp : Option Response),
        st.total_prompt_cost ≤ (OpenAIClient.calculate_cost_run st msgs resp).total_prompt_cost
        ∧ st.total_completion_cost
            ≤ (OpenAIClient.calculate_cost_run st msgs resp).total_completion_cost := by
  constructor
  · intro m cc
    exact ⟨le_refl 0, le_refl 0⟩
  · intro st msgs resp
    unfold OpenAIClient.calculate_cost_run OpenAIClient.calculate_cost
    cases hj : OpenAIClient.join_contents msgs with
    | error e => exact ⟨le_refl _, le_refl _⟩
    | ok t =>
      cases resp with
      | none =>
        refine ⟨?_, le_refl _⟩
        exact le_add_of_nonneg_right (st.cost_calculator.prompt_cost_nonneg _ _)
      | some r =>
        obtain ⟨chs⟩ := r
        cases chs with
        | nil =>
          refine ⟨?_, le_refl _⟩
          exact le_add_of_nonneg_right (st.cost_calculator.prompt_cost_nonneg _ _)
        | cons c rest =>
          refine ⟨?_, ?_⟩
          · exact le_add_of_nonneg_right (st.cost_calculator.prompt_cost_nonneg _ _)
          · exact le_add_of_nonneg_right (st.cost_calculator.completion_cost_nonneg _)

/-- C10: in the built payload the `response_format` key is present iff the
argument is truthy (present — a pydantic model class is always truthy) and
the `max_completion_tokens` key is present iff the argument is a truthy
integer (present and non-zero); in particular a caller-supplied maximum of
`0` completion tokens is silently dropped from the payload. -/
theorem build_api_payload_truthy_fields (model : String) (msgs : List Message)
    (rf : Option String) (mct : Option Int) :
    ((OpenAIClient.build_api_payload model msgs rf mct).response_format.isSome ↔ rf.isSome)
    ∧ ((OpenAIClient.build_api_payload model msgs rf mct).max_completion_tokens.isSome
        ↔ ∃ n, mct = some n ∧ n ≠ 0)
    ∧ (OpenAIClient.build_api_payload model msgs rf (some 0)).max_completion_tokens = none := by
  refine ⟨?_, ?_, ?_⟩
  · cases rf <;> simp [OpenAIClient.build_api_payload]
  · cases mct with
    | none => simp [OpenAIClient.build_api_payload]
    | some n =>
      by_cases hn : n = 0
      · subst hn
        simp [OpenAIClient.build_api_payload]
      · simp [OpenAIClient.build_api_payload, hn]
  · rfl

/-- C4: when the external API call raises, `_make_api_call` hands back an
absent response; cost recording with an absent response adds exactly the
same amount to the running prompt total as recording an equivalent
successful call with the same messages (the prompt side never looks at the
response), and leaves the running completion total unchanged. -/
theorem api_error_cost_recording (st : ClientState) (msgs : List Message) (r : Response)
    (api : ApiPayload → Except Unit Response) (p : ApiPayload) (e : Unit)
    (h : api p = Except.error e) :
    (OpenAIClient.make_api_call api p).1 = none
    ∧ (OpenAIClient.calculate_cost_run st msgs none).total_prompt_cost
        - st.total_prompt_cost
      = (OpenAIClient.calculate_cost_run st msgs (some r)).total_prompt_cost
        - st.total_prompt_cost
    ∧ (OpenAIClient.calculate_cost_run st msgs none).total_completion_cost
        = st.total_completion_cost := by
  refine ⟨?_, ?_, ?_⟩
  · simp [OpenAIClient.make_api_call, h]
  · unfold OpenAIClient.calculate_cost_run OpenAIClient.calculate_cost
    cases hj : OpenAIClient.join_contents msgs with
    | error e2 => rfl
    | ok t =>
      obtain ⟨chs⟩ := r
      cases chs with
      | nil => rfl
      | cons c rest => rfl
  · unfold OpenAIClient.calculate_cost_run OpenAIClient.calculate_cost
    cases hj : OpenAIClient.join_contents msgs with
    | error e2 => rfl
    | ok t => rfl

/-- C4 witness: the theorem evaluated on a concrete failing API, payload,
state and plain message list. -/
theorem api_error_cost_recording_witness :
    (OpenAIClient.make_api_call apiFail demoPayload).1 = none
    ∧ (OpenAIClient.calculate_cost_run demoState demoMsgsPlain none).total_prompt_cost
        - demoState.total_prompt_cost
      = (OpenAIClient.calculate_cost_run demoState demoMsgsPlain (some demoResp)).total_prompt_cost
        - demoState.total_prompt_cost
    ∧ (OpenAIClient.calculate_cost_run demoState demoMsgsPlain none).total_completion_cost
        = demoState.total_completion_cost :=
  api_error_cost_recording demoState demoMsgsPlain demoResp apiFail demoPayload () rfl

/-- C5: the unwrapper has exactly three terminal outcomes on the first
choice. With at least one choice: a truthy `parsed` payload is returned
as-is; otherwise a truthy `refusal` (a non-empty string — Python
truthiness) is returned instead of the raw text; otherwise — and also when
the response is absent or has no choices — the raw (possibly null)
response is returned unchanged. -/
theorem handle_response_three_outcomes (resp : Option Response) :
    (∀ r c rest, resp = some r → r.choices = c :: rest →
      (∀ p, c.message.parsed = some p →
        (OpenAIClient.handle_response resp).1 = ChatOutcome.parsedResult p)
      ∧ (∀ s, c.message.parsed = none → c.message.refusal = some s → s ≠ "" →
        (OpenAIClient.handle_response resp).1 = ChatOutcome.refusalResult s)
      ∧ (c.message.parsed = none →
          (c.message.refusal = none ∨ c.message.refusal = some "") →
          (OpenAIClient.handle_response resp).1 = ChatOutcome.rawResult resp))
    ∧ (resp = none → (OpenAIClient.handle_response resp).1 = ChatOutcome.rawResult none)
    ∧ (∀ r, resp = some r → r.choices = [] →
        (OpenAIClient.handle_response resp).1 = ChatOutcome.rawResult resp) := by
  refine ⟨?_, ?_, ?_⟩
  · rintro r c rest rfl hch
    refine ⟨?_, ?_, ?_⟩
    · intro p hp
      simp [OpenAIClient.handle_response, hch, hp]
    · intro s hp hs hne
      simp [OpenAIClient.handle_response, hch, hp, hs, hne]
    · rintro hp (hr | hr) <;> simp [OpenAIClient.handle_response, hch, hp, hr]
  · rintro rfl
    rfl
  · rintro r rfl hch
    simp [OpenAIClient.handle_response, hch]

/-- C5 witness: the theorem evaluated on a concrete response whose first
choice carries a parsed payload. -/
theorem handle_response_three_outcomes_witness :
    (OpenAIClient.handle_response (some demoRespParsed)).1
      = ChatOutcome.parsedResult "payload" :=
  ((handle_response_three_outcomes (some demoRespParsed)).1 demoRespParsed
    ⟨⟨some "x", some "payload", none⟩⟩ [] rfl rfl).1 "payload" rfl

/-- C6: when the image file cannot be read, the call degrades instead of
failing: the user message is sent as plain text (content equals the raw
user text, no image part), the diagnostic is emitted, and the call proceeds
— `chat` on such a filesystem returns normally for every state, API
collaborator, schema and token limit. -/
theorem image_read_failure_degrades (fs : FS) (sys usr p : String)
    (hp : p ≠ "") (hread : fs p = none) :
    OpenAIClient.prepare_messages fs sys usr (some p)
      = ([⟨"system", Content.str sys⟩, ⟨"user", Content.str usr⟩],
         ["Error encoding image"])
    ∧ ∀ (st : ClientState) (api : ApiPayload → Except Unit Response)
        (rf : Option String) (mct : Option Int),
        ∃ res, OpenAIClient.chat st fs api sys usr (some p) rf mct = Except.ok res := by
  have hpm : OpenAIClient.prepare_messages fs sys usr (some p)
      = ([⟨"system", Content.str sys⟩, ⟨"user", Content.str usr⟩],
         ["Error encoding image"]) := by
    simp [OpenAIClient.prepare_messages, OpenAIClient.encode_image, hread, hp]
  refine ⟨hpm, ?_⟩
  intro st api rf mct
  have hj : OpenAIClient.join_contents
      [⟨"system", Content.str sys⟩, ⟨"user", Content.str usr⟩]
      = Except.ok (sys ++ (usr ++ "")) := rfl
  obtain ⟨st1, hcc⟩ := calculate_cost_ok st
    [⟨"system", Content.str sys⟩, ⟨"user", Content.str usr⟩]
    ((OpenAIClient.make_api_call api
      (OpenAIClient.build_api_payload st.model
        [⟨"system", Content.str sys⟩, ⟨"user", Content.str usr⟩] rf mct)).1)
    (sys ++ (usr ++ "")) hj
  simp [OpenAIClient.chat, hpm, hcc]

/-- C6 witness: the theorem evaluated on the always-failing filesystem at
a concrete call. -/
theorem image_read_failure_degrades_witness :
    OpenAIClient.prepare_messages fsNone "s" "u" (some "img.jpg")
      = ([⟨"system", Content.str "s"⟩, ⟨"user", Content.str "u"⟩],
         ["Error encoding image"])
    ∧ ∃ res, OpenAIClient.chat demoState fsNone apiFail "s" "u" (some "img.jpg")
        none (some 300) = Except.ok res :=
  ⟨(image_read_failure_degrades fsNone "s" "u" "img.jpg" (by decide) rfl).1,
   (image_read_failure_degrades fsNone "s" "u" "img.jpg" (by decide) rfl).2
     demoState apiFail none (some 300)⟩

/-- C9 counterexample: the claim says that whenever an image is supplied
and successfully encoded the user content is the two-part sequence. On a
zero-byte image file the read and the base64 encoding succeed (the result
is `some ""`, not `None`), yet the empty base64 string is falsy, so the
code silently sends the user message as plain text with no image part. -/
theorem prepare_messages_empty_file_counterexample :
    OpenAIClient.encode_image fsEmptyFile "img.jpg" = (some "", [])
    ∧ (OpenAIClient.prepare_messages fsEmptyFile "s" "u" (some "img.jpg")).1
        = [⟨"system", Content.str "s"⟩, ⟨"user", Content.str "u"⟩] :=
  ⟨rfl, rfl⟩

/-- C9 amended: the assembled list is always exactly one system message
followed by exactly one user message (system first), and when a truthy
(non-empty) image path is supplied and the encoding yields a truthy
(non-empty) base64 string, the user content is the two-part sequence with
the text part first and the image part second. -/
theorem prepare_messages_shape (fs : FS) (sys usr : String) (ip : Option String) :
    (∃ c, (OpenAIClient.prepare_messages fs sys usr ip).1
        = [⟨"system", Content.str sys⟩, ⟨"user", c⟩])
    ∧ ∀ p b, ip = some p → p ≠ "" → fs p = some b → base64encode b ≠ "" →
        (OpenAIClient.prepare_messages fs sys usr ip).1
          = [⟨"system", Content.str sys⟩,
             ⟨"user", Content.parts
               [CPart.text usr,
                CPart.image_url ("data:image/jpeg;base64," ++ base64encode b)]⟩] := by
  constructor
  · cases ip with
    | none => exact ⟨Content.str usr, rfl⟩
    | some p =>
      by_cases hp : p = ""
      · exact ⟨Content.str usr, by simp [OpenAIClient.prepare_messages, hp]⟩
      · rcases he : OpenAIClient.encode_image fs p with ⟨ob, diag⟩
        cases ob with
        | none =>
          exact ⟨Content.str usr, by simp [OpenAIClient.prepare_messages, hp, he]⟩
        | some s =>
          by_cases hs : s = ""
          · exact ⟨Content.str usr,
              by simp [OpenAIClient.prepare_messages, hp, he, hs]⟩
          · exact ⟨Content.parts
                [CPart.text usr, CPart.image_url ("data:image/jpeg;base64," ++ s)],
              by simp [OpenAIClient.prepare_messages, hp, he, hs]⟩
  · rintro p b rfl hp hb hs
    simp [OpenAIClient.prepare_messages, OpenAIClient.encode_image, hp, hb, hs]

/-- C9 amended witness: the two-part shape evaluated on a concrete
three-byte image file. -/
theorem prepare_messages_shape_witness :
    (OpenAIClient.prepare_messages fsImg "s" "u" (some "img.jpg")).1
      = [⟨"system", Content.str "s"⟩,
         ⟨"user", Content.parts
           [CPart.text "u",
            CPart.image_url ("data:image/jpeg;base64," ++ base64encode [1, 2, 3])]⟩] :=
  (prepare_messages_shape fsImg "s" "u" (some "img.jpg")).2 "img.jpg" [1, 2, 3]
    rfl (by decide) rfl (by decide)
